import Mathlib

/-!
# Verification of the real-estate utility layer (`src/js/utils.js`)

Shallow embedding of the mortgage-rate fetch-and-cache helper
(`fetchMortgageRates`), the amortization math
(`calculateMonthlyPayment`, `calculateTotalInterest`) and the county
tax-rate lookup (`getCountyTaxRate`).

Modelling conventions:
* JavaScript numbers are embedded as exact rationals (`ℚ`); the claims
  under study are about formula structure and fixed constants, not
  floating-point rounding.
* Time is milliseconds since the epoch, embedded as `ℕ` (`Date.now()`
  values; always positive in reality).
* JSON values are an inductive type; JavaScript `undefined` is `none`
  in an `Option Json`.  Property access on `null`/`undefined` throws
  (`Except.error`), matching JavaScript semantics; access on any other
  non-object value yields `undefined` without throwing.
* The network collaborator is an explicit parameter (`FetchOutcome`)
  describing what `fetch` + `response.json()` would do on this call.
* `Date.prototype.toISOString` is host functionality; it is modelled by
  an injective encoding `toISOString : ℕ → String` of the timestamp
  (the exact ISO-8601 text is presentation only and no claim depends
  on it).
-/

/-- JSON values as produced by `response.json()`. -/
inductive Json where
  | null : Json
  | bool : Bool → Json
  | num : ℚ → Json
  | str : String → Json
  | arr : List Json → Json
  | obj : List (String × Json) → Json


/-- Field lookup in a JSON object's field list (first match, as in a JS
object literal with distinct keys). -/
def jsonLookup : List (String × Json) → String → Option Json
  | [], _ => none
  | (k, v) :: rest, key => if k = key then some v else jsonLookup rest key

/-- JavaScript property access `v[key]`, where `none` is `undefined`:
accessing a property of `undefined` or `null` throws a `TypeError`;
on an object it yields the field or `undefined`; on any other value
(number, string, boolean, array) the properties named here are absent,
so it yields `undefined`. -/
def jsGet : Option Json → String → Except Unit (Option Json)
  | none, _ => .error ()
  | some .null, _ => .error ()
  | some (.obj fields), key => .ok (jsonLookup fields key)
  | some _, _ => .ok none

/-- JavaScript truthiness of a possibly-`undefined` value. -/
def truthy : Option Json → Bool
  | none => false
  | some .null => false
  | some (.bool b) => b
  | some (.num q) => q ≠ 0
  | some (.str s) => s ≠ ""
  | some (.arr _) => true
  | some (.obj _) => true

/-- Models `new Date(ms).toISOString()`: an injective encoding of the
epoch-millisecond timestamp (the concrete ISO-8601 rendering is host
functionality no claim depends on). -/
def toISOString (ms : ℕ) : String := toString ms

/-- The snapshot object built by `fetchMortgageRates`.  On the success
path each data field holds whatever JavaScript value the response body
supplied (possibly `undefined` = `none`), exactly as the source assigns
`data.rates.thirtyYear.rate` etc. without validation. -/
structure RateSnapshot where
  thirtyYear : Option Json
  fifteenYear : Option Json
  source : Option Json
  lastUpdated : Option Json
  isLive : Bool


/-- `RATES_CACHE_DURATION = 60 * 60 * 1000` (one hour in ms). -/
def RATES_CACHE_DURATION : ℕ := 60 * 60 * 1000

/-- The module-level cache slot: `cachedRates` (initially `null`) and
`ratesCacheTime` (initially `null`). -/
structure RatesCache where
  cachedRates : Option RateSnapshot
  ratesCacheTime : Option ℕ


/-- The cache at script load: both slots `null`. -/
def initialCache : RatesCache := ⟨none, none⟩

/-- One possible behaviour of the network collaborator for a single
`fetch(RATES_API_URL)` call:
* `transportError` — the fetch promise rejects (DNS, connection, …);
* `httpError status` — a response with `response.ok = false`;
* `body none` — `response.ok` but `response.json()` rejects;
* `body (some data)` — `response.ok` and the parsed JSON value. -/
inductive FetchOutcome where
  | transportError : FetchOutcome
  | httpError : ℕ → FetchOutcome
  | body : Option Json → FetchOutcome


/-- The guard `cachedRates && ratesCacheTime && (Date.now() - ratesCacheTime
< RATES_CACHE_DURATION)`.  `ratesCacheTime` is a number, so its truthiness
test excludes `0`; JavaScript's possibly-negative subtraction compares
equal to ℕ truncated subtraction here, since a negative difference and a
zero difference are both `< RATES_CACHE_DURATION`. -/
def isFresh (st : RatesCache) (now : ℕ) : Bool :=
  match st.cachedRates, st.ratesCacheTime with
  | some _, some t => t != 0 && now - t < RATES_CACHE_DURATION
  | _, _ => false

/-- The fallback snapshot built in the `catch` block:
`{ thirtyYear: 6.5, fifteenYear: 5.9, source: 'Fallback (offline)',
lastUpdated: new Date().toISOString(), isLive: false }`. -/
def fallbackSnapshot (now : ℕ) : RateSnapshot :=
  { thirtyYear := some (.num 6.5)
    fifteenYear := some (.num 5.9)
    source := some (.str "Fallback (offline)")
    lastUpdated := some (.str (toISOString now))
    isLive := false }

/-- Evaluation of the snapshot object literal from the response body:
`{ thirtyYear: data.rates.thirtyYear.rate, fifteenYear:
data.rates.fifteenYear.rate, source: data.source, lastUpdated:
data.lastUpdated, isLive: !data.error }`.  Any property access that
throws a `TypeError` aborts to the `catch` block (`Except.error`). -/
def parseSnapshot (data : Json) : Except Unit RateSnapshot := do
  let rates ← jsGet (some data) "rates"
  let thirty ← jsGet rates "thirtyYear"
  let thirtyRate ← jsGet thirty "rate"
  let rates2 ← jsGet (some data) "rates"
  let fifteen ← jsGet rates2 "fifteenYear"
  let fifteenRate ← jsGet fifteen "rate"
  let src ← jsGet (some data) "source"
  let lastUpd ← jsGet (some data) "lastUpdated"
  let errFlag ← jsGet (some data) "error"
  pure { thirtyYear := thirtyRate
         fifteenYear := fifteenRate
         source := src
         lastUpdated := lastUpd
         isLive := !truthy errFlag }

/-- The body of the `try` block after the cache check: throw on
transport failure, on `!response.ok`, on a `response.json()` rejection,
and on any `TypeError` while building the snapshot. -/
def tryFetch (net : FetchOutcome) : Except Unit RateSnapshot :=
  match net with
  | .transportError => .error ()
  | .httpError _ => .error ()
  | .body none => .error ()
  | .body (some data) => parseSnapshot data

/-- Result of one `fetchMortgageRates()` call: the returned snapshot,
the cache slot afterwards, and whether the network collaborator was
invoked. -/
structure FetchResult where
  snapshot : RateSnapshot
  state : RatesCache
  networkInvoked : Bool


/-- Stale-cache path of `fetchMortgageRates`: on success assign
`cachedRates` then `ratesCacheTime = Date.now()` and return the new
snapshot; in the `catch` block return the fallback snapshot and leave
the cache slot untouched. -/
def fetchFresh (st : RatesCache) (now : ℕ) (net : FetchOutcome) : FetchResult :=
  match tryFetch net with
  | .ok snap => ⟨snap, ⟨some snap, some now⟩, true⟩
  | .error _ => ⟨fallbackSnapshot now, st, true⟩

/-- `fetchMortgageRates()`, with the implicit inputs made explicit: the
module cache slot `st`, the current time `now` (`Date.now()`), and the
network collaborator's behaviour `net` for this call. -/
def fetchMortgageRates (st : RatesCache) (now : ℕ) (net : FetchOutcome) :
    FetchResult :=
  match st.cachedRates, st.ratesCacheTime with
  | some snap, some t =>
      if t != 0 && now - t < RATES_CACHE_DURATION then ⟨snap, st, false⟩
      else fetchFresh st now net
  | some _, none => fetchFresh st now net
  | none, _ => fetchFresh st now net

/-- Plain field lookup on a JSON value: the object's field (or
`undefined`), `undefined` on any non-object. -/
def jsFieldOf (data : Json) (key : String) : Option Json :=
  match data with
  | .obj fields => jsonLookup fields key
  | _ => none

/-- A well-formed response body, used as a concrete witness input. -/
def sampleBody : Json :=
  .obj [ ("rates", .obj [ ("thirtyYear", .obj [("rate", .num 6.81)])
                        , ("fifteenYear", .obj [("rate", .num 5.96)]) ])
       , ("source", .str "Freddie Mac PMMS")
       , ("lastUpdated", .str "2024-06-01T00:00:00Z")
       , ("error", .bool false) ]

/-- The snapshot `fetchMortgageRates` builds from `sampleBody`. -/
def sampleSnapshot : RateSnapshot :=
  ⟨some (.num 6.81), some (.num 5.96), some (.str "Freddie Mac PMMS"),
   some (.str "2024-06-01T00:00:00Z"), true⟩

/-- A well-formed response body whose `error` member is `true`: the
remote endpoint reporting its own degraded state. -/
def degradedBody : Json :=
  .obj [ ("rates", .obj [ ("thirtyYear", .obj [("rate", .num 7)])
                        , ("fifteenYear", .obj [("rate", .num 6)]) ])
       , ("source", .str "Acme Rates API")
       , ("lastUpdated", .str "2024-06-01T00:00:00Z")
       , ("error", .bool true) ]

/-- A response body deviating from the expected shape at a leaf:
`rates.thirtyYear` is an object with no `rate` member. -/
def partialBody : Json :=
  .obj [ ("rates", .obj [ ("thirtyYear", .obj [])
                        , ("fifteenYear", .obj [("rate", .num 5.96)]) ])
       , ("source", .str "Acme Rates API")
       , ("lastUpdated", .str "2024-06-01T00:00:00Z") ]

/-- `calculateMonthlyPayment(principal, annualRate, years)`.  The term
is a whole number of years, so `Math.pow(1 + monthlyRate, numPayments)`
is an iterated product, exact over ℚ. -/
def calculateMonthlyPayment (principal annualRate : ℚ) (years : ℕ) : ℚ :=
  let monthlyRate := annualRate / 100 / 12
  let numPayments := years * 12
  if monthlyRate = 0 then
    principal / numPayments
  else
    principal * (monthlyRate * (1 + monthlyRate) ^ numPayments) /
      ((1 + monthlyRate) ^ numPayments - 1)

/-- `calculateTotalInterest(principal, monthlyPayment, years)`. -/
def calculateTotalInterest (principal monthlyPayment : ℚ) (years : ℕ) : ℚ :=
  monthlyPayment * years * 12 - principal

/-- `TEXAS_COUNTY_TAX_RATES` as the (key, name, rate) table of the
object literal. -/
def TEXAS_COUNTY_TAX_RATES : List (String × String × ℚ) :=
  [ ("harris", "Harris County (Houston)", 2.23)
  , ("dallas", "Dallas County", 2.18)
  , ("tarrant", "Tarrant County (Fort Worth)", 2.26)
  , ("bexar", "Bexar County (San Antonio)", 2.23)
  , ("travis", "Travis County (Austin)", 2.11)
  , ("collin", "Collin County", 2.17)
  , ("denton", "Denton County", 2.16)
  , ("hidalgo", "Hidalgo County", 2.15)
  , ("fortbend", "Fort Bend County", 2.48)
  , ("williamson", "Williamson County", 2.21)
  , ("montgomery", "Montgomery County", 2.27)
  , ("elpaso", "El Paso County", 2.53)
  , ("cameron", "Cameron County", 2.05)
  , ("nueces", "Nueces County (Corpus Christi)", 2.24)
  , ("brazoria", "Brazoria County", 2.35)
  , ("bell", "Bell County", 2.38)
  , ("galveston", "Galveston County", 2.32)
  , ("lubbock", "Lubbock County", 2.01)
  , ("webb", "Webb County (Laredo)", 2.38)
  , ("jefferson", "Jefferson County (Beaumont)", 2.28) ]

/-- The property names every object literal inherits from
`Object.prototype`: for these keys `TEXAS_COUNTY_TAX_RATES[countyKey]`
yields an inherited function (or, for `__proto__`, `Object.prototype`
itself) rather than `undefined`. -/
def OBJECT_PROTOTYPE_KEYS : List String :=
  [ "constructor", "hasOwnProperty", "isPrototypeOf", "propertyIsEnumerable"
  , "toLocaleString", "toString", "valueOf", "__proto__"
  , "__defineGetter__", "__defineSetter__", "__lookupGetter__"
  , "__lookupSetter__" ]

/-- `getCountyTaxRate(countyKey)`: evaluates
`TEXAS_COUNTY_TAX_RATES[countyKey]`, then `county ? county.rate : 2.20`.
`none` is JavaScript `undefined`.  Three cases of the bracket lookup:
* an own entry of the literal — a `{name, rate}` object, truthy, so its
  numeric `rate` is returned;
* a property inherited from `Object.prototype` (e.g. `"constructor"`,
  `"toString"`) — a function or object, also truthy, but with no `rate`
  member, so `county.rate` is `undefined`;
* anything else — `undefined`, falsy, so the `2.20` default is
  returned. -/
def getCountyTaxRate (countyKey : String) : Option ℚ :=
  match TEXAS_COUNTY_TAX_RATES.find? (fun e => e.1 == countyKey) with
  | some e => some e.2.2
  | none =>
      if countyKey ∈ OBJECT_PROTOTYPE_KEYS then none
      else some 2.20

/-! ## Amortization math -/

/-- C6: `calculateMonthlyPayment` computes the straight-line payment at
zero rate and the standard annuity formula otherwise, with
`r = annualRatePercent / 100 / 12` and `n = termYears * 12`. -/
theorem calculateMonthlyPayment_spec (p a : ℚ) (y : ℕ)
    (hp : 0 < p) (ha : 0 ≤ a) (hy : 0 < y) :
    calculateMonthlyPayment p a y =
      if a = 0 then p / ((y : ℚ) * 12)
      else
        p * ((a / 100 / 12) * (1 + a / 100 / 12) ^ (y * 12)) /
          ((1 + a / 100 / 12) ^ (y * 12) - 1) := by
  unfold calculateMonthlyPayment
  by_cases h : a = 0
  · subst h
    norm_num
  · have h' : a / 100 / 12 ≠ 0 := by
      simp [div_eq_zero_iff, h]
    simp [h, h']

/-- Witness for `calculateMonthlyPayment_spec` at
`p = 100000`, `a = 0`, `y = 30`. -/
theorem calculateMonthlyPayment_spec_witness :
    calculateMonthlyPayment 100000 0 30 =
      if (0 : ℚ) = 0 then (100000 : ℚ) / ((30 : ℕ) * 12)
      else (100000 : ℚ) * ((0 / 100 / 12) * (1 + 0 / 100 / 12) ^ (30 * 12)) /
          ((1 + 0 / 100 / 12) ^ (30 * 12) - 1) :=
  calculateMonthlyPayment_spec 100000 0 30 (by norm_num) (by norm_num) (by norm_num)

/-- C8 counterexample: at an input violating the preconditions
(`principal = -100000 < 0`) the function silently returns a negative
number (the type `ℚ → ℚ → ℕ → ℚ` offers no error channel, matching the
source, which performs no validation and signals nothing). -/
theorem calculateMonthlyPayment_negative_output :
    calculateMonthlyPayment (-100000) 0 30 < 0 := by
  norm_num [calculateMonthlyPayment]

/-- C8 amended: the function performs no input validation; for every
negative principal (any nonnegative rate, positive term) it silently
returns a negative payment with no error signalled. -/
theorem calculateMonthlyPayment_no_validation (p a : ℚ) (y : ℕ)
    (hp : p < 0) (ha : 0 ≤ a) (hy : 0 < y) :
    calculateMonthlyPayment p a y < 0 := by
  unfold calculateMonthlyPayment
  by_cases h : a / 100 / 12 = 0
  · simp only [h, if_pos]
    refine div_neg_of_neg_of_pos hp ?_
    have : (0 : ℚ) < (y : ℚ) := by exact_mod_cast hy
    push_cast
    nlinarith
  · have hr : 0 < a / 100 / 12 := lt_of_le_of_ne (by positivity) (Ne.symm h)
    simp only [h, if_neg, if_false]
    have hn : y * 12 ≠ 0 := by omega
    have hpow : 1 < (1 + a / 100 / 12) ^ (y * 12) :=
      one_lt_pow₀ (by linarith) hn
    refine div_neg_of_neg_of_pos ?_ (by linarith)
    exact mul_neg_of_neg_of_pos hp (by positivity)

/-- Witness for `calculateMonthlyPayment_no_validation` at
`p = -100000`, `a = 5`, `y = 15`. -/
theorem calculateMonthlyPayment_no_validation_witness :
    calculateMonthlyPayment (-100000) 5 15 < 0 :=
  calculateMonthlyPayment_no_validation (-100000) 5 15 (by norm_num) (by norm_num)
    (by norm_num)

/-- C9: `calculateTotalInterest` returns
`monthlyPayment * termYears * 12 - principal`. -/
theorem calculateTotalInterest_spec (p m : ℚ) (y : ℕ) :
    calculateTotalInterest p m y = m * (y : ℚ) * 12 - p := rfl

/-! ## County tax lookup -/

/-- C10 counterexample: `"constructor"` is not a key of the county
table, yet `getCountyTaxRate "constructor"` returns `undefined` — the
inherited `Object.prototype.constructor` is truthy, so the code takes
the `county.rate` branch on a function with no `rate` member — not the
claimed `2.20` default, and not a numeric value. -/
theorem getCountyTaxRate_inherited_counterexample :
    (∀ e ∈ TEXAS_COUNTY_TAX_RATES, e.1 ≠ "constructor") ∧
    getCountyTaxRate "constructor" = none ∧
    getCountyTaxRate "constructor" ≠ some 2.20 := by
  refine ⟨by simp [TEXAS_COUNTY_TAX_RATES], rfl, ?_⟩
  have h : getCountyTaxRate "constructor" = none := rfl
  rw [h]
  simp

/-- C10 amended: a key present in `TEXAS_COUNTY_TAX_RATES` yields that
county's tabulated rate; an absent key yields the `2.20` default only
when it is not a property inherited from `Object.prototype` — for
inherited keys such as `"constructor"` or `"toString"` the function
returns `undefined`, a non-numeric value. -/
theorem getCountyTaxRate_cases (k : String) :
    (∀ name rate, (k, name, rate) ∈ TEXAS_COUNTY_TAX_RATES →
        getCountyTaxRate k = some rate) ∧
    ((∀ e ∈ TEXAS_COUNTY_TAX_RATES, e.1 ≠ k) → k ∈ OBJECT_PROTOTYPE_KEYS →
        getCountyTaxRate k = none) ∧
    ((∀ e ∈ TEXAS_COUNTY_TAX_RATES, e.1 ≠ k) → k ∉ OBJECT_PROTOTYPE_KEYS →
        getCountyTaxRate k = some 2.20) := by
  refine ⟨?_, ?_, ?_⟩
  · intro name rate hmem
    fin_cases hmem <;> rfl
  · intro habs hin
    have hnone : TEXAS_COUNTY_TAX_RATES.find? (fun e => e.1 == k) = none := by
      rw [List.find?_eq_none]
      intro x hx
      simpa using habs x hx
    simp [getCountyTaxRate, hnone, hin]
  · intro habs hnin
    have hnone : TEXAS_COUNTY_TAX_RATES.find? (fun e => e.1 == k) = none := by
      rw [List.find?_eq_none]
      intro x hx
      simpa using habs x hx
    simp [getCountyTaxRate, hnone, hnin]

/-- Witness for `getCountyTaxRate_cases`: a tabulated key ("harris"),
an inherited key ("constructor"), and a plain absent key ("anderson"). -/
theorem getCountyTaxRate_cases_witness :
    getCountyTaxRate "harris" = some 2.23 ∧
    getCountyTaxRate "constructor" = none ∧
    getCountyTaxRate "anderson" = some 2.20 :=
  ⟨(getCountyTaxRate_cases "harris").1 "Harris County (Houston)" 2.23
      (by simp [TEXAS_COUNTY_TAX_RATES]),
   (getCountyTaxRate_cases "constructor").2.1
      (by simp [TEXAS_COUNTY_TAX_RATES]) (by simp [OBJECT_PROTOTYPE_KEYS]),
   (getCountyTaxRate_cases "anderson").2.2
      (by simp [TEXAS_COUNTY_TAX_RATES]) (by simp [OBJECT_PROTOTYPE_KEYS])⟩

/-! ## Fetch-and-cache helper lemmas -/

theorem except_bind_ok {α β : Type} (x : Except Unit α) (f : α → Except Unit β)
    (b : β) : x.bind f = .ok b ↔ ∃ a, x = .ok a ∧ f a = .ok b := by
  cases x <;> simp [Except.bind]

/-- With a stale (or empty) cache, `fetchMortgageRates` runs the
`try`/`catch` body. -/
theorem fetchMortgageRates_stale (st : RatesCache) (now : ℕ) (net : FetchOutcome)
    (h : isFresh st now = false) :
    fetchMortgageRates st now net = fetchFresh st now net := by
  rcases st with ⟨cr, ct⟩
  cases cr <;> cases ct <;> simp_all [isFresh, fetchMortgageRates]

/-- With a fresh cache, `fetchMortgageRates` returns the cached snapshot,
leaves the cache untouched and performs no network call. -/
theorem fetchMortgageRates_fresh (st : RatesCache) (now : ℕ) (net : FetchOutcome)
    (snap : RateSnapshot) (hc : st.cachedRates = some snap)
    (h : isFresh st now = true) :
    fetchMortgageRates st now net = ⟨snap, st, false⟩ := by
  rcases st with ⟨cr, ct⟩
  cases cr <;> cases ct <;> simp_all [isFresh, fetchMortgageRates]

theorem jsGet_of_ne_null (data : Json) (key : String) (h : data ≠ .null) :
    jsGet (some data) key = .ok (jsFieldOf data key) := by
  cases data <;> simp_all [jsGet, jsFieldOf]

/-- A snapshot successfully parsed from a response body carries the
body's `source`, `lastUpdated` and negated-`error` fields verbatim. -/
theorem parseSnapshot_fields (data : Json) (snap : RateSnapshot)
    (h : parseSnapshot data = .ok snap) :
    snap.source = jsFieldOf data "source" ∧
    snap.lastUpdated = jsFieldOf data "lastUpdated" ∧
    snap.isLive = !truthy (jsFieldOf data "error") := by
  have hnn : data ≠ .null := by
    intro hd
    subst hd
    simp [parseSnapshot, jsGet, Bind.bind, Except.bind] at h
  rw [parseSnapshot] at h
  simp only [Bind.bind] at h
  rw [jsGet_of_ne_null data "rates" hnn, jsGet_of_ne_null data "source" hnn,
      jsGet_of_ne_null data "lastUpdated" hnn,
      jsGet_of_ne_null data "error" hnn] at h
  cases h1 : jsGet (jsFieldOf data "rates") "thirtyYear" with
  | error e => simp [h1, Except.bind] at h
  | ok thirty =>
    cases h2 : jsGet thirty "rate" with
    | error e => simp [h1, h2, Except.bind] at h
    | ok thirtyRate =>
      cases h3 : jsGet (jsFieldOf data "rates") "fifteenYear" with
      | error e => simp [h1, h2, h3, Except.bind] at h
      | ok fifteen =>
        cases h4 : jsGet fifteen "rate" with
        | error e => simp [h1, h2, h3, h4, Except.bind] at h
        | ok fifteenRate =>
          simp only [h1, h2, h3, h4, Except.bind, pure, Except.pure,
            Except.ok.injEq] at h
          subst h
          simp

/-! ## Fetch-and-cache claims -/

/-- C5: `fetchMortgageRates` never fails: for every cache state, time
and network-collaborator behaviour it terminates with a snapshot — the
cached one (without a network call), a snapshot parsed from a successful
response, or the fallback when the attempt threw. -/
theorem fetchMortgageRates_never_fails (st : RatesCache) (now : ℕ)
    (net : FetchOutcome) :
    (∃ snap, st.cachedRates = some snap ∧
        (fetchMortgageRates st now net).snapshot = snap ∧
        (fetchMortgageRates st now net).networkInvoked = false) ∨
    (∃ snap, tryFetch net = .ok snap ∧
        (fetchMortgageRates st now net).snapshot = snap) ∨
    (tryFetch net = .error () ∧
        (fetchMortgageRates st now net).snapshot = fallbackSnapshot now) := by
  by_cases hf : isFresh st now = true
  · rcases st with ⟨cr, ct⟩
    rcases cr with _ | snap
    · simp [isFresh] at hf
    · left
      refine ⟨snap, rfl, ?_, ?_⟩ <;>
        simp [fetchMortgageRates_fresh ⟨some snap, ct⟩ now net snap rfl hf]
  · have hf' : isFresh st now = false := by simpa using hf
    rw [fetchMortgageRates_stale st now net hf']
    cases ht : tryFetch net with
    | ok snap =>
        right; left
        exact ⟨snap, rfl, by simp [fetchFresh, ht]⟩
    | error e =>
        right; right
        cases e
        exact ⟨rfl, by simp [fetchFresh, ht]⟩

/-- C4: on a stale-cache fetch whose network attempt fails (transport,
protocol, or a throwing schema deviation), the returned snapshot is
exactly the fallback: 6.5 / 5.9, source "Fallback (offline)",
`lastUpdated` the fallback construction time, `isLive = false`. -/
theorem fallback_snapshot_fields (st : RatesCache) (now : ℕ)
    (net : FetchOutcome) (hstale : isFresh st now = false)
    (hfail : tryFetch net = .error ()) :
    (fetchMortgageRates st now net).snapshot.thirtyYear = some (.num 6.5) ∧
    (fetchMortgageRates st now net).snapshot.fifteenYear = some (.num 5.9) ∧
    (fetchMortgageRates st now net).snapshot.source =
      some (.str "Fallback (offline)") ∧
    (fetchMortgageRates st now net).snapshot.lastUpdated =
      some (.str (toISOString now)) ∧
    (fetchMortgageRates st now net).snapshot.isLive = false := by
  rw [fetchMortgageRates_stale st now net hstale]
  simp [fetchFresh, hfail, fallbackSnapshot]

/-- Witness for `fallback_snapshot_fields`: empty cache, transport
failure at `now = 1700000000000`. -/
theorem fallback_snapshot_fields_witness :
    (fetchMortgageRates initialCache 1700000000000 .transportError).snapshot.thirtyYear
      = some (.num 6.5) ∧
    (fetchMortgageRates initialCache 1700000000000 .transportError).snapshot.fifteenYear
      = some (.num 5.9) ∧
    (fetchMortgageRates initialCache 1700000000000 .transportError).snapshot.source
      = some (.str "Fallback (offline)") ∧
    (fetchMortgageRates initialCache 1700000000000 .transportError).snapshot.lastUpdated
      = some (.str (toISOString 1700000000000)) ∧
    (fetchMortgageRates initialCache 1700000000000 .transportError).snapshot.isLive
      = false :=
  fallback_snapshot_fields initialCache 1700000000000 .transportError rfl rfl

/-- C1 counterexample: starting from the empty cache, a failed fetch at
`now = 1000` leaves both cache slots `null` — the fallback snapshot is
NOT written into the cache — and a second call one millisecond later
(well within the TTL) invokes the network collaborator again. -/
theorem fallback_not_cached_counterexample :
    (fetchMortgageRates initialCache 1000 .transportError).state.cachedRates
      = none ∧
    (fetchMortgageRates initialCache 1000 .transportError).state.ratesCacheTime
      = none ∧
    (fetchMortgageRates (fetchMortgageRates initialCache 1000 .transportError).state
        1001 .transportError).networkInvoked = true :=
  ⟨rfl, rfl, rfl⟩

/-- C1 amended: on a stale-cache fetch whose network attempt fails, the
fallback snapshot is returned but the cache slot is left exactly as it
was; consequently any later call at a time where that unchanged cache is
still stale invokes the network collaborator again. -/
theorem fallback_not_cached (st : RatesCache) (now now' : ℕ)
    (net net' : FetchOutcome) (hstale : isFresh st now = false)
    (hfail : tryFetch net = .error ()) (hstale' : isFresh st now' = false) :
    (fetchMortgageRates st now net).snapshot = fallbackSnapshot now ∧
    (fetchMortgageRates st now net).state = st ∧
    (fetchMortgageRates (fetchMortgageRates st now net).state now' net').networkInvoked
      = true := by
  have h1 : fetchMortgageRates st now net = ⟨fallbackSnapshot now, st, true⟩ := by
    rw [fetchMortgageRates_stale st now net hstale]
    simp [fetchFresh, hfail]
  refine ⟨by rw [h1], by rw [h1], ?_⟩
  rw [h1]
  rw [fetchMortgageRates_stale st now' net' hstale']
  unfold fetchFresh
  cases tryFetch net' <;> rfl

/-- Witness for `fallback_not_cached`: empty cache, transport failures
at `now = 1000` and `now' = 1001`. -/
theorem fallback_not_cached_witness :
    (fetchMortgageRates initialCache 1000 .transportError).snapshot
      = fallbackSnapshot 1000 ∧
    (fetchMortgageRates initialCache 1000 .transportError).state = initialCache ∧
    (fetchMortgageRates (fetchMortgageRates initialCache 1000 .transportError).state
        1001 (.httpError 503)).networkInvoked = true :=
  fallback_not_cached initialCache 1000 1001 .transportError (.httpError 503)
    rfl rfl rfl

/-- C2 counterexample: with an empty cache and a well-formed response
whose `error` member is `true`, the resulting snapshot has
`isLive = false` while `source` is the remote-reported string
"Acme Rates API", not "Fallback (offline)" — the claimed iff fails. -/
theorem isLive_iff_fallback_counterexample :
    (fetchMortgageRates initialCache 1000 (.body (some degradedBody))).snapshot.isLive
      = false ∧
    (fetchMortgageRates initialCache 1000 (.body (some degradedBody))).snapshot.source
      = some (.str "Acme Rates API") ∧
    (fetchMortgageRates initialCache 1000 (.body (some degradedBody))).snapshot.source
      ≠ some (.str "Fallback (offline)") := by
  refine ⟨rfl, rfl, ?_⟩
  have h : (fetchMortgageRates initialCache 1000
      (.body (some degradedBody))).snapshot.source
      = some (.str "Acme Rates API") := rfl
  rw [h]
  simp

/-- C2 amended: on the failure path `isLive = false` together with
`source = "Fallback (offline)"`; on a successful parse the snapshot is
returned with `isLive` the negation of the body's `error`-field
truthiness and `source` copied from the body — so `isLive = false` also
arises with a non-fallback source whenever the remote flags an error. -/
theorem isLive_source_relation (st : RatesCache) (now : ℕ) (net : FetchOutcome)
    (hstale : isFresh st now = false) :
    (tryFetch net = .error () →
      (fetchMortgageRates st now net).snapshot.isLive = false ∧
      (fetchMortgageRates st now net).snapshot.source
        = some (.str "Fallback (offline)")) ∧
    (∀ data, net = .body (some data) → ∀ snap, parseSnapshot data = .ok snap →
      (fetchMortgageRates st now net).snapshot = snap ∧
      snap.isLive = !truthy (jsFieldOf data "error") ∧
      snap.source = jsFieldOf data "source") := by
  rw [fetchMortgageRates_stale st now net hstale]
  constructor
  · intro hfail
    simp [fetchFresh, hfail, fallbackSnapshot]
  · rintro data rfl snap hok
    have hfields := parseSnapshot_fields data snap hok
    exact ⟨by simp [fetchFresh, tryFetch, hok], hfields.2.2, hfields.1⟩

/-- Witness for `isLive_source_relation`: the failure part at a
transport error, the success part at `degradedBody`. -/
theorem isLive_source_relation_witness :
    ((fetchMortgageRates initialCache 1000 .transportError).snapshot.isLive = false ∧
      (fetchMortgageRates initialCache 1000 .transportError).snapshot.source
        = some (.str "Fallback (offline)")) ∧
    ((fetchMortgageRates initialCache 1000 (.body (some degradedBody))).snapshot
        = ⟨some (.num 7), some (.num 6), some (.str "Acme Rates API"),
           some (.str "2024-06-01T00:00:00Z"), false⟩ ∧
      (⟨some (.num 7), some (.num 6), some (.str "Acme Rates API"),
           some (.str "2024-06-01T00:00:00Z"), false⟩ : RateSnapshot).isLive
        = !truthy (jsFieldOf degradedBody "error") ∧
      (⟨some (.num 7), some (.num 6), some (.str "Acme Rates API"),
           some (.str "2024-06-01T00:00:00Z"), false⟩ : RateSnapshot).source
        = jsFieldOf degradedBody "source") :=
  ⟨(isLive_source_relation initialCache 1000 .transportError rfl).1 rfl,
   (isLive_source_relation initialCache 1000 (.body (some degradedBody)) rfl).2
     degradedBody rfl _ rfl⟩

/-- C3: after a stale-cache fetch at `now₁` whose network attempt
succeeded (populating the cache), any call at `now₂` with
`now₂ - now₁ < TTL` returns the identical cached snapshot and does not
invoke the network collaborator.  (`0 < now₁` reflects that `Date.now()`
values are positive epoch milliseconds; `ratesCacheTime` is
truthiness-tested by the source.) -/
theorem cache_hit_within_ttl (st : RatesCache) (now₁ now₂ : ℕ)
    (net₁ net₂ : FetchOutcome) (snap : RateSnapshot) (hpos : 0 < now₁)
    (httl : now₂ - now₁ < RATES_CACHE_DURATION)
    (hstale : isFresh st now₁ = false) (hok : tryFetch net₁ = .ok snap) :
    (fetchMortgageRates st now₁ net₁).snapshot = snap ∧
    (fetchMortgageRates (fetchMortgageRates st now₁ net₁).state now₂ net₂).snapshot
      = snap ∧
    (fetchMortgageRates (fetchMortgageRates st now₁ net₁).state now₂ net₂).networkInvoked
      = false := by
  have h1 : fetchMortgageRates st now₁ net₁ = ⟨snap, ⟨some snap, some now₁⟩, true⟩ := by
    rw [fetchMortgageRates_stale st now₁ net₁ hstale]
    simp [fetchFresh, hok]
  have hne : now₁ ≠ 0 := Nat.pos_iff_ne_zero.mp hpos
  have hfresh : isFresh ⟨some snap, some now₁⟩ now₂ = true := by
    simp [isFresh, httl, hne]
  rw [h1]
  rw [fetchMortgageRates_fresh ⟨some snap, some now₁⟩ now₂ net₂ snap rfl hfresh]
  exact ⟨rfl, rfl, rfl⟩

/-- Witness for `cache_hit_within_ttl`: successful fetch of `sampleBody`
at `now₁ = 1000`, second call at `now₂ = 3600999` (difference 3599999 ms,
one below the TTL) with a network that would fail if consulted. -/
theorem cache_hit_within_ttl_witness :
    (fetchMortgageRates initialCache 1000 (.body (some sampleBody))).snapshot
      = sampleSnapshot ∧
    (fetchMortgageRates
        (fetchMortgageRates initialCache 1000 (.body (some sampleBody))).state
        3600999 .transportError).snapshot = sampleSnapshot ∧
    (fetchMortgageRates
        (fetchMortgageRates initialCache 1000 (.body (some sampleBody))).state
        3600999 .transportError).networkInvoked = false :=
  cache_hit_within_ttl initialCache 1000 3600999 (.body (some sampleBody))
    .transportError sampleSnapshot (by norm_num)
    (by norm_num [RATES_CACHE_DURATION]) rfl rfl

/-- C7 counterexample: a response body deviating from the expected
shape — `rates.thirtyYear` has no `rate` member — is NOT treated as a
fetch failure: the snapshot is built from the malformed data, with
`thirtyYear` `undefined`, the remote source string and `isLive = true`,
instead of the fallback. -/
theorem schema_deviation_counterexample :
    (fetchMortgageRates initialCache 1000 (.body (some partialBody))).snapshot
      = ⟨none, some (.num 5.96), some (.str "Acme Rates API"),
         some (.str "2024-06-01T00:00:00Z"), true⟩ ∧
    (fetchMortgageRates initialCache 1000 (.body (some partialBody))).snapshot.source
      ≠ some (.str "Fallback (offline)") ∧
    (fetchMortgageRates initialCache 1000 (.body (some partialBody))).snapshot.thirtyYear
      = none := by
  refine ⟨rfl, ?_, rfl⟩
  have h : (fetchMortgageRates initialCache 1000
      (.body (some partialBody))).snapshot.source
      = some (.str "Acme Rates API") := rfl
  rw [h]
  simp

/-- C7 amended: only a shape deviation that makes an intermediate object
access throw yields the fallback — e.g. a `rates` member that is missing
or `null` (so `data.rates.thirtyYear` throws a `TypeError`); a missing
or wrong-typed leaf `rate` field is silently carried into the snapshot
(see the counterexample). -/
theorem missing_rates_gives_fallback (st : RatesCache) (now : ℕ) (data : Json)
    (hstale : isFresh st now = false)
    (h : jsFieldOf data "rates" = none ∨ jsFieldOf data "rates" = some .null) :
    (fetchMortgageRates st now (.body (some data))).snapshot
      = fallbackSnapshot now := by
  have hfail : tryFetch (.body (some data)) = .error () := by
    show parseSnapshot data = .error ()
    by_cases hnn : data = Json.null
    · subst hnn
      rfl
    · rw [parseSnapshot]
      simp only [Bind.bind]
      rw [jsGet_of_ne_null data "rates" hnn]
      rcases h with h | h <;> simp [h, Except.bind, jsGet]
  rw [fetchMortgageRates_stale st now _ hstale]
  simp [fetchFresh, hfail]

/-- Witness for `missing_rates_gives_fallback`: empty cache, body `{}`
(no `rates` member) at `now = 1000`. -/
theorem missing_rates_gives_fallback_witness :
    (fetchMortgageRates initialCache 1000 (.body (some (.obj [])))).snapshot
      = fallbackSnapshot 1000 :=
  missing_rates_gives_fallback initialCache 1000 (.obj []) rfl (.inl rfl)
